import Mathlib

/-!
Verification of the user-credential subsystem of the PetLove backend
(`backend_python/routers/users.py`).

Python strings are modelled as `List Char` (one entry per code point, which
matches Python's `str` semantics for equality and `startswith`).  The Mongo
`users` collection is modelled as a `List` of `StoredUser` documents in
insertion order; `find_one({"email": e})` is `List.find?` on the email field
and `insert_one` appends.  The external `bcrypt` library is modelled by a
`BcryptLib` structure: `hashWith p s` is the digest of plaintext `p` under the
full salt/cost specification `s`, and `saltOf stored` recovers the salt/cost
specification embedded in a stored bcrypt value.  `bcrypt.checkpw` is, per the
library's documented behaviour, the recomputation of the hash of the plaintext
with the embedded salt/cost followed by a constant-time comparison with the
stored value.  Nondeterministic inputs of the handlers — the fresh salt from
`bcrypt.gensalt()`, the store-assigned `_id`, and the clock — are explicit
parameters.
-/

namespace Petweb

/-- A Python string, as its sequence of characters. -/
abbrev Str := List Char

/-- Coerce a Lean string literal to the `Str` model. -/
def str (s : String) : Str := s.data

/-- Abstract model of the external `bcrypt` library.  `hashWith p s` is the
self-describing hashed credential for plaintext `p` under salt/cost
specification `s`; `saltOf v` extracts the salt/cost specification embedded in
a stored value `v`. -/
structure BcryptLib where
  hashWith : Str → Str → Str
  saltOf : Str → Str

/-- The fixed scheme marker with which every bcrypt hash begins and on which
`login_user` branches (`stored_password.startswith('$2b$')`). -/
def bcryptMarker : Str := str "$2b$"

/-- `bcrypt.checkpw(password, stored)`: recompute the hash of `password` with
the salt/cost embedded in `stored` and compare (constant time) with `stored`. -/
def checkpw (B : BcryptLib) (password stored : Str) : Bool :=
  B.hashWith password (B.saltOf stored) == stored

/-- The documented contract of the bcrypt library, assumed where a claim needs
more than the literal call structure: a hash embeds its own salt/cost so that
recomputation with the embedded salt reproduces the hash; every hash carries
the scheme marker; and distinct plaintexts hashed under the same embedded
salt give distinct digests (bcrypt's collision-freeness idealisation). -/
structure BcryptSound (B : BcryptLib) : Prop where
  recheck : ∀ p s, B.hashWith p (B.saltOf (B.hashWith p s)) = B.hashWith p s
  marked : ∀ p s, bcryptMarker.isPrefixOf (B.hashWith p s) = true
  distinct : ∀ p₁ p₂ s, p₁ ≠ p₂ →
    B.hashWith p₁ (B.saltOf (B.hashWith p₂ s)) ≠ B.hashWith p₂ s

/-- A document of the `users` collection, with the fields the handlers read
and write.  `id` models the store-assigned `_id` (as a string). -/
structure StoredUser where
  id : Str
  name : Str
  email : Str
  phone : Str
  address : Str
  password : Str
  created_at : Nat
  updated_at : Nat
deriving DecidableEq

/-- The registration request body (`UserCreate`). -/
structure UserCreate where
  name : Str
  email : Str
  password : Str
  phone : Str
  address : Str
deriving DecidableEq

/-- The login success projection (`UserResponse`): exactly the fields
`id`, `name`, `email`, `phone` — no password, no address, no timestamps. -/
structure UserResponse where
  id : Str
  name : Str
  email : Str
  phone : Str
deriving DecidableEq

/-- Outcome of the login handler: a `UserResponse`, or an HTTP error with
status code and client-facing detail string. -/
inductive LoginResult where
  | ok (r : UserResponse)
  | err (status : Nat) (detail : Str)
deriving DecidableEq

/-- Outcome of a registration handler: the created document (returned in full,
as the code does), or an HTTP error with status code and detail string. -/
inductive RegResult where
  | created (u : StoredUser)
  | err (status : Nat) (detail : Str)
deriving DecidableEq

/-- True exactly on the error outcomes of `LoginResult`. -/
def LoginResult.isErr : LoginResult → Bool
  | .ok _ => false
  | .err _ _ => true

/-- Detail string of `HTTPException(status_code=409, detail="Email already registered")`. -/
def conflictDetail : Str := str "Email already registered"

/-- Detail string of `HTTPException(status_code=400, detail="Invalid credentials")`. -/
def invalidDetail : Str := str "Invalid credentials"

/-- Detail string of `HTTPException(status_code=500, detail="Server error")`. -/
def serverErrorDetail : Str := str "Server error"

/-- `find_one({"email": email})`: first document of the collection whose
`email` field equals the given one, if any. -/
def findByEmail (db : List StoredUser) (email : Str) : Option StoredUser :=
  db.find? (fun u => u.email == email)

/-- `bcrypt.hashpw(password, salt)` as called at registration (line 31):
the digest of the password under the freshly generated salt. -/
def hashpw (B : BcryptLib) (password salt : Str) : Str :=
  B.hashWith password salt

/-- The password-validity check of `login_user` (lines 100–107): if the stored
value starts with `$2b$`, verify with `bcrypt.checkpw`; otherwise (legacy
plain-text path) compare `stored_password == password` exactly. -/
def login_verify (B : BcryptLib) (password stored : Str) : Bool :=
  if bcryptMarker.isPrefixOf stored then checkpw B password stored
  else stored == password

/-- Modelled from the spec: `models/user.py` (the `UserCreate` model whose
`.dict()` supplies the inserted document, including any timestamp defaults) is
not among the sources; per spec §3, `created_at` and `updated_at` are set on
insert to the current time.  The inserted document carries the candidate's
fields, the hashed password (stored as string, line 34), and both timestamps
equal to the insertion time `now`. -/
def userDocOf (c : UserCreate) (hashed : Str) (now : Nat) (newId : Str) : StoredUser :=
  { id := newId, name := c.name, email := c.email, phone := c.phone,
    address := c.address, password := hashed, created_at := now, updated_at := now }

/-- `register_user` (`POST /users`, lines 17–46), happy store path: reject
with 409 if a document with the candidate's email exists, else hash the
password, insert the document, and return the document just inserted
(looked up again by its `_id`).  Returns the response together with the
resulting collection state. -/
def register_user (B : BcryptLib) (db : List StoredUser) (c : UserCreate)
    (salt : Str) (now : Nat) (newId : Str) : RegResult × List StoredUser :=
  match findByEmail db c.email with
  | some _ => (RegResult.err 409 conflictDetail, db)
  | none =>
    let hashed := hashpw B c.password salt
    let doc := userDocOf c hashed now newId
    (RegResult.created doc, db ++ [doc])

/-- `register_user_alt` (`POST /users/register`, lines 48–77), transcribed
separately from its own body: duplicate-email check, hash, insert, return the
inserted document. -/
def register_user_alt (B : BcryptLib) (db : List StoredUser) (c : UserCreate)
    (salt : Str) (now : Nat) (newId : Str) : RegResult × List StoredUser :=
  match findByEmail db c.email with
  | some _ => (RegResult.err 409 conflictDetail, db)
  | none =>
    let hashed := hashpw B c.password salt
    let doc := userDocOf c hashed now newId
    (RegResult.created doc, db ++ [doc])

/-- `login_user` (`POST /users/login`, lines 79–130), happy store path: look
up by email (400 "Invalid credentials" if absent), check the password via
`login_verify` (400 "Invalid credentials" if invalid), and on success return
the `UserResponse` projection built from the found document. -/
def login_user (B : BcryptLib) (db : List StoredUser)
    (email password : Str) : LoginResult :=
  match findByEmail db email with
  | none => LoginResult.err 400 invalidDetail
  | some user =>
    let is_valid := login_verify B password user.password
    if is_valid then
      LoginResult.ok { id := user.id, name := user.name,
                       email := user.email, phone := user.phone }
    else LoginResult.err 400 invalidDetail

/-- `get_all_users` (`GET /users`, lines 8–15), happy store path:
`find().to_list(1000)` returns the documents of the collection in order,
capped at the first 1000. -/
def get_all_users (db : List StoredUser) : List StoredUser :=
  db.take 1000

/-- `register_user` with the store's exception behaviour made explicit: the
duplicate-check lookup and the insert each either return (`Except.ok`) or
raise with a message (`Except.error`).  A raised `HTTPException` is re-raised
unchanged (the 409 branch); any other exception `e` is caught and converted to
`HTTPException(status_code=400, detail=str(e))` (lines 42–46). -/
def register_user_try (B : BcryptLib) (findOutcome : Except Str (Option StoredUser))
    (insertOutcome : Except Str Unit) (c : UserCreate)
    (salt : Str) (now : Nat) (newId : Str) : RegResult :=
  match findOutcome with
  | Except.error e => RegResult.err 400 e
  | Except.ok (some _) => RegResult.err 409 conflictDetail
  | Except.ok none =>
    match insertOutcome with
    | Except.error e => RegResult.err 400 e
    | Except.ok _ => RegResult.created (userDocOf c (hashpw B c.password salt) now newId)

/-- `login_user` with the store's exception behaviour made explicit: a raised
`HTTPException` is re-raised unchanged, and any other exception is caught and
converted to `HTTPException(status_code=500, detail="Server error")`
(lines 125–130), hiding the underlying message. -/
def login_user_try (B : BcryptLib) (findOutcome : Except Str (Option StoredUser))
    (email password : Str) : LoginResult :=
  match findOutcome with
  | Except.error _ => LoginResult.err 500 serverErrorDetail
  | Except.ok none => LoginResult.err 400 invalidDetail
  | Except.ok (some user) =>
    if login_verify B password user.password then
      LoginResult.ok { id := user.id, name := user.name,
                       email := user.email, phone := user.phone }
    else LoginResult.err 400 invalidDetail

/-! Concrete bcrypt instance used to evaluate the development on closed
inputs: the digest is the marker followed by the plaintext (the salt is
ignored and `saltOf` returns the empty specification).  It satisfies
`BcryptSound` and makes every handler computable by `decide`. -/

/-- A concrete `BcryptLib` instance for closed evaluations. -/
def toyBcrypt : BcryptLib :=
  { hashWith := fun p _ => bcryptMarker ++ p, saltOf := fun _ => [] }

/-- A list is a `isPrefixOf`-prefix of itself followed by anything. -/
theorem isPrefixOf_append_self (m p : Str) : m.isPrefixOf (m ++ p) = true := by
  induction m with
  | nil => simp [List.isPrefixOf]
  | cons a as ih => simp [List.isPrefixOf, ih]

/-- The concrete instance satisfies the bcrypt library contract. -/
theorem toyBcrypt_sound : BcryptSound toyBcrypt := by
  refine ⟨fun p s => rfl, fun p s => isPrefixOf_append_self _ _, ?_⟩
  intro p₁ p₂ s hne h
  exact hne (List.append_cancel_left h)

/-- A stored user with a legacy plain-text password, for closed evaluations. -/
def sampleLegacyUser : StoredUser :=
  { id := str "u1", name := str "A", email := str "a@x.com", phone := str "1",
    address := str "addr", password := str "pw1", created_at := 0, updated_at := 0 }

/-- A registration candidate, for closed evaluations. -/
def sampleCreate : UserCreate :=
  { name := str "A", email := str "a@x.com", password := str "pw1",
    phone := str "1", address := str "addr" }

example : login_user toyBcrypt [sampleLegacyUser] (str "a@x.com") (str "pw1")
    = LoginResult.ok { id := str "u1", name := str "A",
                       email := str "a@x.com", phone := str "1" } := by decide

example : login_user toyBcrypt [sampleLegacyUser] (str "a@x.com") (str "bad")
    = LoginResult.err 400 invalidDetail := by decide

example : login_verify toyBcrypt (str "pw1") (toyBcrypt.hashWith (str "pw1") (str "s"))
    = true := by decide

/-- C1: credential verification is a two-branch function of (plaintext,
stored): when `stored` carries the `$2b$` marker, it accepts iff the bcrypt
recomputation of the plaintext against the embedded salt/cost equals `stored`;
otherwise (legacy path, malformed values included) it accepts iff the
plaintext equals `stored` exactly. -/
theorem verify_two_branch_c1 (B : BcryptLib) (p s : Str) :
    login_verify B p s = true ↔
      (if bcryptMarker.isPrefixOf s then B.hashWith p (B.saltOf s) = s else p = s) := by
  unfold login_verify checkpw
  by_cases h : bcryptMarker.isPrefixOf s
  · rw [if_pos h, if_pos h]
    exact beq_iff_eq
  · rw [if_neg h, if_neg h]
    exact beq_iff_eq.trans eq_comm

/-- C2: hash/verify round-trip under the bcrypt contract: verification of `p₁`
against the registration-time hash of `p₁` (any salt) succeeds, and against
the hash of a different password `p₂` fails. -/
theorem hash_verify_roundtrip_c2 (B : BcryptLib) (hB : BcryptSound B)
    (p₁ p₂ s₁ s₂ : Str) :
    login_verify B p₁ (hashpw B p₁ s₁) = true ∧
      (p₁ ≠ p₂ → login_verify B p₁ (hashpw B p₂ s₂) = false) := by
  constructor
  · simp [login_verify, hashpw, checkpw, hB.marked p₁ s₁, hB.recheck p₁ s₁]
  · intro hne
    simp [login_verify, hashpw, checkpw, hB.marked p₂ s₂]
    exact hB.distinct p₁ p₂ s₂ hne

/-- Witness for C2 at the concrete instance and passwords "pw1" ≠ "pw2". -/
theorem hash_verify_roundtrip_c2_witness :
    login_verify toyBcrypt (str "pw1") (hashpw toyBcrypt (str "pw1") (str "s")) = true ∧
      login_verify toyBcrypt (str "pw1") (hashpw toyBcrypt (str "pw2") (str "s")) = false :=
  ⟨(hash_verify_roundtrip_c2 toyBcrypt toyBcrypt_sound (str "pw1") (str "pw2")
      (str "s") (str "s")).1,
   (hash_verify_roundtrip_c2 toyBcrypt toyBcrypt_sound (str "pw1") (str "pw2")
      (str "s") (str "s")).2 (by decide)⟩

/-- Every failing login returns exactly `400 "Invalid credentials"`. -/
theorem login_err_canonical (B : BcryptLib) (db : List StoredUser) (e p : Str)
    (h : (login_user B db e p).isErr = true) :
    login_user B db e p = LoginResult.err 400 invalidDetail := by
  unfold login_user at h ⊢
  cases hf : findByEmail db e with
  | none => rfl
  | some u =>
    rw [hf] at h
    by_cases hv : login_verify B p u.password
    · simp [hv, LoginResult.isErr] at h
    · simp [hv]

/-- C3: login-failure indistinguishability: any two failing logins (in
particular, unknown email versus wrong password) return the same error —
same status code, same detail string. -/
theorem login_failures_indistinguishable_c3 (B : BcryptLib)
    (db₁ db₂ : List StoredUser) (e₁ p₁ e₂ p₂ : Str)
    (h₁ : (login_user B db₁ e₁ p₁).isErr = true)
    (h₂ : (login_user B db₂ e₂ p₂).isErr = true) :
    login_user B db₁ e₁ p₁ = login_user B db₂ e₂ p₂ := by
  rw [login_err_canonical B db₁ e₁ p₁ h₁, login_err_canonical B db₂ e₂ p₂ h₂]

/-- Witness for C3: wrong password for a registered email versus an unknown
email, on a concrete one-user store, give equal errors. -/
theorem login_failures_indistinguishable_c3_witness :
    (login_user toyBcrypt [sampleLegacyUser] (str "a@x.com") (str "bad")).isErr = true ∧
      (login_user toyBcrypt [sampleLegacyUser] (str "b@x.com") (str "pw1")).isErr = true ∧
      login_user toyBcrypt [sampleLegacyUser] (str "a@x.com") (str "bad")
        = login_user toyBcrypt [sampleLegacyUser] (str "b@x.com") (str "pw1") :=
  ⟨by decide, by decide,
   login_failures_indistinguishable_c3 toyBcrypt [sampleLegacyUser] [sampleLegacyUser]
     (str "a@x.com") (str "bad") (str "b@x.com") (str "pw1") (by decide) (by decide)⟩

/-- C4: registration conflict atomicity: when some stored document already has
the candidate's email, registration returns `409 "Email already registered"`
and the collection is unchanged (no insert happened). -/
theorem register_conflict_atomic_c4 (B : BcryptLib) (db : List StoredUser)
    (c : UserCreate) (salt : Str) (now : Nat) (newId : Str)
    (h : ∃ u ∈ db, u.email = c.email) :
    register_user B db c salt now newId = (RegResult.err 409 conflictDetail, db) := by
  obtain ⟨u, hu, he⟩ := h
  cases hf : findByEmail db c.email with
  | some v => simp [register_user, hf]
  | none =>
    exfalso
    have hnone := List.find?_eq_none.mp hf u hu
    simp [he] at hnone

/-- Witness for C4: re-registering the email of a concrete stored user yields
the 409 error and leaves the store as it was. -/
theorem register_conflict_atomic_c4_witness :
    register_user toyBcrypt [sampleLegacyUser] sampleCreate (str "s") 5 (str "u2")
      = (RegResult.err 409 conflictDetail, [sampleLegacyUser]) :=
  register_conflict_atomic_c4 toyBcrypt [sampleLegacyUser] sampleCreate
    (str "s") 5 (str "u2") ⟨sampleLegacyUser, by decide, by decide⟩

/-- C5: login success projection: when a document matches the email and the
password verifies, the response is exactly the `{id, name, email, phone}`
projection of the matched document — the `UserResponse` type has no password,
address or timestamp fields. -/
theorem login_success_projection_c5 (B : BcryptLib) (db : List StoredUser)
    (e p : Str) (u : StoredUser)
    (hf : findByEmail db e = some u)
    (hv : login_verify B p u.password = true) :
    login_user B db e p
      = LoginResult.ok { id := u.id, name := u.name,
                         email := u.email, phone := u.phone } := by
  simp [login_user, hf, hv]

/-- Witness for C5 on a concrete legacy-password user. -/
theorem login_success_projection_c5_witness :
    login_user toyBcrypt [sampleLegacyUser] (str "a@x.com") (str "pw1")
      = LoginResult.ok { id := sampleLegacyUser.id, name := sampleLegacyUser.name,
                         email := sampleLegacyUser.email, phone := sampleLegacyUser.phone } :=
  login_success_projection_c5 toyBcrypt [sampleLegacyUser] (str "a@x.com") (str "pw1")
    sampleLegacyUser (by decide) (by decide)

/-- C6 counterexample: a concrete successful registration returns the created
document itself, whose `password` field equals the stored hashed password —
so the response does contain a stored record's password after it was set. -/
theorem register_response_contains_password_c6_cex :
    (register_user toyBcrypt [] sampleCreate (str "s") 5 (str "u2")).1
        = RegResult.created (userDocOf sampleCreate (bcryptMarker ++ str "pw1") 5 (str "u2")) ∧
      (register_user toyBcrypt [] sampleCreate (str "s") 5 (str "u2")).2
        = [userDocOf sampleCreate (bcryptMarker ++ str "pw1") 5 (str "u2")] ∧
      (userDocOf sampleCreate (bcryptMarker ++ str "pw1") 5 (str "u2")).password
        = bcryptMarker ++ str "pw1" :=
  ⟨rfl, rfl, rfl⟩

/-- C6 amended: only the login path hides the password: `GET /users` returns
the stored documents verbatim (passwords included, shown here for stores
within the 1000 cap), a successful registration returns the full stored
document including the hashed password, and a successful login returns the
password-free `{id, name, email, phone}` projection. -/
theorem password_exposure_amended_c6 :
    (∀ db : List StoredUser, db.length ≤ 1000 → get_all_users db = db) ∧
      (∀ (B : BcryptLib) (db : List StoredUser) (c : UserCreate)
          (salt : Str) (now : Nat) (newId : Str),
        findByEmail db c.email = none →
          (register_user B db c salt now newId).1
            = RegResult.created (userDocOf c (hashpw B c.password salt) now newId)) ∧
      (∀ (B : BcryptLib) (db : List StoredUser) (e p : Str) (r : UserResponse),
        login_user B db e p = LoginResult.ok r →
          ∃ u, findByEmail db e = some u ∧
            r = { id := u.id, name := u.name, email := u.email, phone := u.phone }) := by
  refine ⟨fun db h => List.take_of_length_le h, ?_, ?_⟩
  · intro B db c salt now newId hf
    simp [register_user, hf]
  · intro B db e p r hr
    unfold login_user at hr
    cases hf : findByEmail db e with
    | none => rw [hf] at hr; exact absurd hr (by simp)
    | some u =>
      rw [hf] at hr
      by_cases hv : login_verify B p u.password
      · simp [hv] at hr
        exact ⟨u, rfl, hr.symm⟩
      · simp [hv] at hr

/-- Witness for C6 amended, at concrete stores and requests. -/
theorem password_exposure_amended_c6_witness :
    get_all_users [sampleLegacyUser] = [sampleLegacyUser] ∧
      (register_user toyBcrypt [] sampleCreate (str "s") 5 (str "u2")).1
        = RegResult.created
            (userDocOf sampleCreate (hashpw toyBcrypt (str "pw1") (str "s")) 5 (str "u2")) ∧
      (∃ u, findByEmail [sampleLegacyUser] (str "a@x.com") = some u ∧
        ({ id := str "u1", name := str "A", email := str "a@x.com",
           phone := str "1" } : UserResponse)
          = { id := u.id, name := u.name, email := u.email, phone := u.phone }) :=
  ⟨password_exposure_amended_c6.1 [sampleLegacyUser] (by decide),
   password_exposure_amended_c6.2.1 toyBcrypt [] sampleCreate (str "s") 5 (str "u2")
     (by decide),
   password_exposure_amended_c6.2.2 toyBcrypt [sampleLegacyUser] (str "a@x.com")
     (str "pw1")
     { id := str "u1", name := str "A", email := str "a@x.com", phone := str "1" }
     (by decide)⟩

/-- C7: registration timestamping (timestamp fields modelled from the spec,
see `userDocOf`): a successful registration persists a document whose
`created_at` and `updated_at` both equal the insertion time. -/
theorem register_sets_timestamps_c7 (B : BcryptLib) (db : List StoredUser)
    (c : UserCreate) (salt : Str) (now : Nat) (newId : Str)
    (h : findByEmail db c.email = none) :
    ∃ doc, register_user B db c salt now newId = (RegResult.created doc, db ++ [doc]) ∧
      doc.created_at = now ∧ doc.updated_at = now := by
  refine ⟨userDocOf c (hashpw B c.password salt) now newId, ?_, rfl, rfl⟩
  simp [register_user, h]

/-- Witness for C7 on the empty store at time 5. -/
theorem register_sets_timestamps_c7_witness :
    ∃ doc, register_user toyBcrypt [] sampleCreate (str "s") 5 (str "u2")
        = (RegResult.created doc, [] ++ [doc]) ∧ doc.created_at = 5 ∧ doc.updated_at = 5 :=
  register_sets_timestamps_c7 toyBcrypt [] sampleCreate (str "s") 5 (str "u2") (by decide)

/-- A concrete store of 1001 users with pairwise distinct emails. -/
def bigDb : List StoredUser :=
  (List.range 1001).map (fun n =>
    { id := [], name := [], email := List.replicate n 'a', phone := [],
      address := [], password := [], created_at := 0, updated_at := 0 })

/-- C8 counterexample: on a concrete store of 1001 users, `GET /users` does
not return every record — `to_list(1000)` truncates to the first 1000. -/
theorem get_all_users_truncation_c8_cex : get_all_users bigDb ≠ bigDb := by
  intro h
  have hlen := congrArg List.length h
  simp [get_all_users, bigDb, List.length_take] at hlen

/-- C8 amended: `GET /users` returns the stored records in order truncated to
the first 1000; whenever the store holds at most 1000 records this is every
record, with no pagination. -/
theorem get_all_users_first_thousand_c8 (db : List StoredUser) :
    get_all_users db = db.take 1000 ∧ (db.length ≤ 1000 → get_all_users db = db) :=
  ⟨rfl, fun h => List.take_of_length_le h⟩

/-- Witness for C8 amended on a concrete one-user store. -/
theorem get_all_users_first_thousand_c8_witness :
    get_all_users [sampleLegacyUser] = [sampleLegacyUser] :=
  (get_all_users_first_thousand_c8 [sampleLegacyUser]).2 (by decide)

/-- C9: `POST /users` and `POST /users/register` are behaviourally equivalent:
given the same store state, candidate, salt, clock and assigned id, both
return the same response and leave the store in the same state. -/
theorem register_endpoints_equivalent_c9 (B : BcryptLib) (db : List StoredUser)
    (c : UserCreate) (salt : Str) (now : Nat) (newId : Str) :
    register_user B db c salt now newId = register_user_alt B db c salt now newId :=
  rfl

/-- C10: registration error channel: an unexpected (non-`HTTPException`) fault
during registration — whether in the duplicate-check lookup or in the insert —
is returned as status 400 carrying the exception's own message, while the
login handler maps its unexpected faults to the generic `500 "Server error"`. -/
theorem registration_error_channel_c10 (B : BcryptLib) (m₁ m₂ : Str)
    (ins : Except Str Unit) (c : UserCreate) (salt : Str) (now : Nat) (newId : Str)
    (e p : Str) :
    register_user_try B (Except.error m₁) ins c salt now newId = RegResult.err 400 m₁ ∧
      register_user_try B (Except.ok none) (Except.error m₂) c salt now newId
        = RegResult.err 400 m₂ ∧
      login_user_try B (Except.error m₁) e p = LoginResult.err 500 serverErrorDetail :=
  ⟨rfl, rfl, rfl⟩

end Petweb
